import Mathlib

/-!
Shallow embedding of the llm-code-deployment service (src/app/*.py) and
verification of its specification claims.

The embedding models:
* `app/utils.py`          — `verify_secret` over the process-wide `SECRET_STORE`;
* `app/models.py`         — the pydantic request models and `.dict()` serialisation;
* `app/main.py`           — the `deploy_app` / `revise_app` dispatchers (with Python
                            exception semantics: the blanket `except Exception`
                            around each handler body) and the background pipelines
                            `process_build_request` / `process_revision_request`;
* `app/evaluation_client.py` — `EvaluationClient.submit_evaluation` retry loop;
* `app/github_client.py`  — `update_repository` (per-file upsert) and
                            `get_latest_commit` (sentinel on provider failure);
* `app/llm_client.py`     — `generate_app_code` and its parsing/fallback helpers.

External collaborators (the HTTP endpoint behind `submit_evaluation`, the
GitHub API, the text-generation pipeline, `json.loads`) are modelled as
oracle parameters: the embedded functions are parametric in the outcome the
collaborator produces, exactly as the orchestration code is.
-/

set_option maxHeartbeats 1000000

namespace LLMDeploy

/-! ### Data model (`app/models.py`) -/

/-- `Attachment(BaseModel)`: `name`, `url`. -/
structure Attachment where
  name : String
  url : String
deriving DecidableEq, Repr

/-- A JSON-like value as it appears in a pydantic `.dict()` serialisation. -/
inductive JVal where
  | str (v : String)
  | num (v : Nat)
  | strList (v : List String)
  | attList (v : List Attachment)
deriving DecidableEq, Repr

/-- `BuildRequest(BaseModel)`: `email, secret, task, round, nonce, brief, checks,
evaluation_url, attachments`.  `round` is constrained `ge=1, le=2`. -/
structure BuildRequest where
  email : String
  secret : String
  task : String
  round : Nat
  nonce : String
  brief : String
  checks : List String
  evaluation_url : String
  attachments : List Attachment
deriving DecidableEq, Repr

/-- `RevisionRequest(BaseModel)`: same fields; `round` constrained `ge=2, le=2`. -/
structure RevisionRequest where
  email : String
  secret : String
  task : String
  round : Nat
  nonce : String
  brief : String
  checks : List String
  evaluation_url : String
  attachments : List Attachment
deriving DecidableEq, Repr

/-- `EvaluationResponse(BaseModel)`: the payload posted to the evaluation URL. -/
structure EvaluationResponse where
  email : String
  task : String
  round : Nat
  nonce : String
  repo_url : String
  commit_sha : String
  pages_url : String
deriving DecidableEq, Repr

/-- `request.dict()` for a `BuildRequest`: the pydantic field dict, in field
declaration order.  There is no `repo_name` key. -/
def BuildRequest.dict (r : BuildRequest) : List (String × JVal) :=
  [("email", .str r.email), ("secret", .str r.secret), ("task", .str r.task),
   ("round", .num r.round), ("nonce", .str r.nonce), ("brief", .str r.brief),
   ("checks", .strList r.checks), ("evaluation_url", .str r.evaluation_url),
   ("attachments", .attList r.attachments)]

/-- `request.dict()` for a `RevisionRequest` (same fields as `BuildRequest`). -/
def RevisionRequest.dict (r : RevisionRequest) : List (String × JVal) :=
  [("email", .str r.email), ("secret", .str r.secret), ("task", .str r.task),
   ("round", .num r.round), ("nonce", .str r.nonce), ("brief", .str r.brief),
   ("checks", .strList r.checks), ("evaluation_url", .str r.evaluation_url),
   ("attachments", .attList r.attachments)]

/-- Python `d.get(k)` on a dict represented as an association list (first match,
the representation keeps keys unique because assignment replaces). -/
def dictGet (d : List (String × JVal)) (k : String) : Option JVal :=
  match d with
  | [] => none
  | (k', v) :: rest => if k' == k then some v else dictGet rest k

/-- Python truthiness of `d.get("repo_name")`-style values: `None`, `""`, `0`,
`[]` are falsy (`if not repo_name:` in `process_revision_request`). -/
def isTruthy : Option JVal → Bool
  | none => false
  | some (.str s) => s ≠ ""
  | some (.num n) => n ≠ 0
  | some (.strList l) => l ≠ []
  | some (.attList l) => l ≠ []

/-- The string carried by a (truthy) string-valued dict entry. -/
def jvalStr : Option JVal → String
  | some (.str s) => s
  | _ => ""

/-! ### Secret Registry (`app/utils.py`, `SECRET_STORE` + `verify_secret`) -/

/-- The process-wide `SECRET_STORE` dict, email ↦ secret.  New bindings are
prepended; lookup takes the first match. -/
abbrev SecretStore := List (String × String)

/-- Lookup `SECRET_STORE.get(email)`. -/
def sGet (ss : SecretStore) (email : String) : Option String :=
  match ss with
  | [] => none
  | (e, s) :: rest => if e == email then some s else sGet rest email

/-- `verify_secret(email, secret)`: if no binding exists, bind the supplied
secret and return `True`; otherwise compare with the bound secret and leave
the store unchanged.  Returns (result, updated store). -/
def verify_secret (ss : SecretStore) (email secret : String) : Bool × SecretStore :=
  match sGet ss email with
  | none => (true, ((email, secret) :: ss : List (String × String)))
  | some expected => (expected == secret, ss)

/-- Run a sequence of `verify_secret` calls (each pair is (email, secret)),
threading the store; returns the final store. -/
def runVerifies (ss : SecretStore) : List (String × String) → SecretStore
  | [] => ss
  | (e, s) :: rest => runVerifies (verify_secret ss e s).2 rest

/-! ### Task Record Store (`task_store` in `app/main.py`) -/

/-- One `task_store` entry: `{"request": request.dict(), "status": ...}`. -/
structure TaskRecord where
  request : List (String × JVal)
  status : String
deriving DecidableEq, Repr

/-- The process-wide `task_store` dict, task id ↦ record. -/
abbrev Store := List (String × TaskRecord)

/-- Lookup `task_store.get(tid)` / `tid in task_store`. -/
def storeGet (ts : Store) (tid : String) : Option TaskRecord :=
  match ts with
  | [] => none
  | (k, rec) :: rest => if k == tid then some rec else storeGet rest tid

/-- Dict assignment `task_store[tid] = rec` (new binding shadows any old one). -/
def storeSet (ts : Store) (tid : String) (rec : TaskRecord) : Store :=
  ((tid, rec) :: ts : List (String × TaskRecord))

/-- `task_store[tid]["status"] = st`: in-place update of the record's status
field (the record is assumed present; on an absent id Python raises `KeyError`,
which the pipelines' callers rule out by creating the record first). -/
def setStatus (ts : Store) (tid : String) (st : String) : Store :=
  match ts with
  | [] => []
  | (k, rec) :: rest =>
    (if k == tid then (k, { rec with status := st }) else (k, rec)) :: setStatus rest tid st

/-! ### GitHub client (`app/github_client.py`) -/

/-- `get_latest_commit(repo_name)`: the provider lookup
(`get_repo` → `get_branch("main")` → `branch.commit.sha`) either yields a sha
or raises `GithubException` (modelled as `Except String String`); the method
catches the exception and returns the sentinel `"unknown"`. -/
def get_latest_commit (lookup : Except String String) : String :=
  match lookup with
  | .ok sha => sha
  | .error _ => "unknown"

/-! ### HTTP dispatchers (`app/main.py`, `deploy_app` / `revise_app`)

Each handler body runs inside `try: ... except Exception as e: raise
HTTPException(status_code=500, detail=str(e))`.  `fastapi.HTTPException`
subclasses `Exception`, so the explicit `raise HTTPException(401/404, ...)`
inside the `try` is caught by that blanket handler and re-raised as a 500
whose detail is `str(e)` (Starlette renders it `"{code}: {detail}"`). -/

/-- Result of one dispatcher call: HTTP status code, the `status` field of a
success body (`"accepted"`) or `""`, the error detail, the returned task id,
the updated stores, and whether a background pipeline task was scheduled. -/
structure DispatchResult where
  status_code : Nat
  body_status : String
  detail : String
  task_id : Option String
  taskStore : Store
  secretStore : SecretStore
  scheduled : Bool
deriving Repr

/-- `POST /api/deploy` handler `deploy_app`. -/
def deploy_app (ts : Store) (ss : SecretStore) (r : BuildRequest) : DispatchResult :=
  let v := verify_secret ss r.email r.secret
  if v.1 then
    let task_id := r.task ++ "-" ++ toString r.round
    let ts' := storeSet ts task_id ⟨r.dict, "processing"⟩
    ⟨200, "accepted", "", some task_id, ts', v.2, true⟩
  else
    -- raise HTTPException(401, "Invalid secret") — caught by the blanket
    -- except and re-raised as HTTPException(500, str(e))
    ⟨500, "", "401: Invalid secret", none, ts, v.2, false⟩

/-- `POST /api/revise` handler `revise_app`. -/
def revise_app (ts : Store) (ss : SecretStore) (r : RevisionRequest) : DispatchResult :=
  let v := verify_secret ss r.email r.secret
  if v.1 then
    let round1_task_id := r.task ++ "-1"
    match storeGet ts round1_task_id with
    | none =>
      -- raise HTTPException(404, "Original task not found") — caught by the
      -- blanket except and re-raised as HTTPException(500, str(e))
      ⟨500, "", "404: Original task not found", none, ts, v.2, false⟩
    | some _ =>
      let task_id := r.task ++ "-" ++ toString r.round
      let ts' := storeSet ts task_id ⟨r.dict, "processing"⟩
      ⟨200, "accepted", "", some task_id, ts', v.2, true⟩
  else
    ⟨500, "", "401: Invalid secret", none, ts, v.2, false⟩

/-! ### Background pipelines (`app/main.py`) -/

/-- Outcomes of the external collaborators one pipeline run interacts with:
* `attachmentPaths` — result of `save_attachments` (best-effort, never raises);
* `genResult`   — `llm_client.generate_app_code` (raises or returns the code dict);
* `pubResult`   — `github_client.create_repository` / `update_repository`
                  (raises or returns `(repo_url, pages_url)`);
* `commitLookup`— the provider lookup inside `get_latest_commit`;
* `notifyResult`— `evaluation_client.submit_evaluation` (total, returns a Bool);
* `repoSuffix`  — `uuid.uuid4().hex[:8]` used to derive the fresh repo name. -/
structure PipelineEnv where
  attachmentPaths : List String
  genResult : Except String (List (String × String))
  pubResult : Except String (String × String)
  commitLookup : Except String String
  notifyResult : Bool
  repoSuffix : String

/-- Trace of one pipeline run: the resulting task store, the sequence of
status writes performed, which collaborators were invoked, and the payload
handed to the notifier (if the run reached it). -/
structure RunTrace where
  store : Store
  statusWrites : List (String × String)
  genCalled : Bool
  pubCalled : Bool
  notifyCalled : Bool
  payload : Option EvaluationResponse
deriving Repr

/-- `process_build_request(request)`: save attachments, generate code, create
the repository, read back the commit sha (best-effort), notify, and write the
terminal status; any exception from generation/publication is absorbed by the
outer `except`, which writes status `"failed"`. -/
def process_build_request (env : PipelineEnv) (ts : Store) (r : BuildRequest) : RunTrace :=
  let tid := r.task ++ "-" ++ toString r.round
  match env.genResult with
  | .error _ =>
    ⟨setStatus ts tid "failed", [(tid, "failed")], true, false, false, none⟩
  | .ok _code =>
    match env.pubResult with
    | .error _ =>
      ⟨setStatus ts tid "failed", [(tid, "failed")], true, true, false, none⟩
    | .ok (repo_url, pages_url) =>
      let commit_sha := get_latest_commit env.commitLookup
      let payload : EvaluationResponse :=
        ⟨r.email, r.task, r.round, r.nonce, repo_url, commit_sha, pages_url⟩
      if env.notifyResult then
        ⟨setStatus ts tid "completed", [(tid, "completed")], true, true, true, some payload⟩
      else
        ⟨setStatus ts tid "evaluation_failed", [(tid, "evaluation_failed")],
         true, true, true, some payload⟩

/-- `process_revision_request(request)`: recover `repo_name` from the stored
round-1 record (`task_store[f"{task}-1"]["request"].get("repo_name")`); a
missing round-1 record (`KeyError`) or a falsy `repo_name`
(`raise Exception("Original repository not found")`) is absorbed by the outer
`except`, which writes status `"failed"` before any collaborator is invoked;
otherwise the run mirrors the build pipeline with `update_repository`. -/
def process_revision_request (env : PipelineEnv) (ts : Store) (r : RevisionRequest) : RunTrace :=
  let tid := r.task ++ "-" ++ toString r.round
  let round1_task_id := r.task ++ "-1"
  match storeGet ts round1_task_id with
  | none =>
    ⟨setStatus ts tid "failed", [(tid, "failed")], false, false, false, none⟩
  | some rec =>
    let repo_name := dictGet rec.request "repo_name"
    if isTruthy repo_name then
      match env.genResult with
      | .error _ =>
        ⟨setStatus ts tid "failed", [(tid, "failed")], true, false, false, none⟩
      | .ok _code =>
        match env.pubResult with
        | .error _ =>
          ⟨setStatus ts tid "failed", [(tid, "failed")], true, true, false, none⟩
        | .ok (repo_url, pages_url) =>
          let commit_sha := get_latest_commit env.commitLookup
          let payload : EvaluationResponse :=
            ⟨r.email, r.task, r.round, r.nonce, repo_url, commit_sha, pages_url⟩
          if env.notifyResult then
            ⟨setStatus ts tid "completed", [(tid, "completed")], true, true, true, some payload⟩
          else
            ⟨setStatus ts tid "evaluation_failed", [(tid, "evaluation_failed")],
             true, true, true, some payload⟩
    else
      ⟨setStatus ts tid "failed", [(tid, "failed")], false, false, false, none⟩

/-! ### Delivery Notifier (`app/evaluation_client.py`, `submit_evaluation`) -/

/-- `max_retries = 5`. -/
def max_retries : Nat := 5

/-- `base_delay = 1` (seconds). -/
def base_delay : Nat := 1

/-- Outcome of one POST to the evaluation URL: `some s` is an HTTP response
with status `s`; `none` is a transport-level exception (caught and logged).
The attempt counts as successful iff `response.status == 200`. -/
def attemptOk (resp : Option Nat) : Bool :=
  match resp with
  | some status => status == 200
  | none => false

/-- Observable trace of one `submit_evaluation` call: the returned Bool, how
many attempts were made, and the `asyncio.sleep` delays (in seconds) in
order. -/
structure SubmitTrace where
  result : Bool
  attempts : Nat
  delays : List Nat
deriving DecidableEq, Repr

/-- The body of `for attempt in range(max_retries)` from loop index `attempt`
on: return `True` as soon as a response has status 200; otherwise sleep
`base_delay * 2 ** attempt` seconds whenever `attempt < max_retries - 1`;
after the last iteration return `False`.  `resp attempt` is the outcome of
the POST performed in iteration `attempt`. -/
def submitFrom (resp : Nat → Option Nat) (attempt : Nat) : SubmitTrace :=
  if _h : attempt < max_retries then
    if attemptOk (resp attempt) then ⟨true, 1, []⟩
    else
      let tail := submitFrom resp (attempt + 1)
      let ds := if attempt < max_retries - 1 then [base_delay * 2 ^ attempt] else []
      ⟨tail.result, tail.attempts + 1, ds ++ tail.delays⟩
  else ⟨false, 0, []⟩
termination_by max_retries - attempt
decreasing_by simp_wf; omega

/-- `submit_evaluation(eval_data, evaluation_url)`: the whole retry loop,
starting at attempt 0. -/
def submit_evaluation (resp : Nat → Option Nat) : SubmitTrace :=
  submitFrom resp 0

/-! ### Repository file upsert (`app/github_client.py`, `update_repository`) -/

/-- A repository's file state: filename ↦ committed contents, newest first
(`update_file` prepends to the existing history; `create_file` starts a new
one). -/
abbrev RepoFiles := List (String × List String)

/-- Lookup a file's commit history (`repo.get_contents(filename)` succeeds
iff this is `some`). -/
def rGet (repo : RepoFiles) (f : String) : Option (List String) :=
  match repo with
  | [] => none
  | (g, hist) :: rest => if g == f then some hist else rGet rest f

/-- `repo.update_file(filename, ..., content, sha)`: new content becomes the
head of the file's history; prior history is preserved. -/
def rUpdate (repo : RepoFiles) (f c : String) : RepoFiles :=
  match repo with
  | [] => []
  | (g, hist) :: rest =>
    (if g == f then (g, c :: hist) else (g, hist)) :: rUpdate rest f c

/-- One iteration of the update loop: `try: get_contents; update_file
except: create_file`. -/
def upsertFile (repo : RepoFiles) (f c : String) : RepoFiles :=
  if (rGet repo f).isSome then rUpdate repo f c
  else ((f, [c]) :: repo : List (String × List String))

/-- `update_repository(name, code)`: the `for filename, content in
code.items()` loop over the generated file dict. -/
def update_repository (repo : RepoFiles) (code : List (String × String)) : RepoFiles :=
  code.foldl (fun acc p => upsertFile acc p.1 p.2) repo

/-! ### LLM client (`app/llm_client.py`)

String literals below escape `\x7b`/`\x7d` for the braces, `\x27` for single
quotes and `\x60` for backticks occurring in the embedded template text. -/

/-- `_get_template_file(filename, brief)`: the `templates` dict plus its
`.get` default. -/
def get_template_file (filename brief : String) : String :=
  match filename with
  | "README.md" =>
      "# Generated Application\n\n## Description\n" ++ brief ++
      "\n\n## Setup\n1. Clone this repository\n2. Open \x60index.html\x60 in a web browser\n3. No build process required\n\n## Features\n- Responsive design\n- Modern UI components\n- Cross-browser compatible\n\n## License\nMIT License\n"
  | "index.html" =>
      "<!DOCTYPE html>\n<html lang=\"en\">\n<head>\n    <meta charset=\"UTF-8\">\n    <meta name=\"viewport\" content=\"width=device-width, initial-scale=1.0\">\n    <title>Generated App</title>\n    <link rel=\"stylesheet\" href=\"style.css\">\n</head>\n<body>\n    <div class=\"container\">\n        <h1>Generated Application</h1>\n        <div id=\"app-content\">\n            <p>Application content will be loaded here.</p>\n        </div>\n    </div>\n    <script src=\"script.js\"></script>\n</body>\n</html>"
  | "style.css" =>
      "/* Generated Application Styles */\nbody \x7b\n    font-family: Arial, sans-serif;\n    margin: 0;\n    padding: 20px;\n    background-color: #f5f5f5;\n\x7d\n\n.container \x7b\n    max-width: 800px;\n    margin: 0 auto;\n    background: white;\n    padding: 20px;\n    border-radius: 8px;\n    box-shadow: 0 2px 4px rgba(0,0,0,0.1);\n\x7d\n\nh1 \x7b\n    color: #333;\n    text-align: center;\n\x7d\n\n#app-content \x7b\n    margin-top: 20px;\n    padding: 20px;\n    border: 1px solid #ddd;\n    border-radius: 4px;\n\x7d"
  | "script.js" =>
      "// Generated Application JavaScript\ndocument.addEventListener(\x27DOMContentLoaded\x27, function() \x7b\n    console.log(\x27Generated application loaded\x27);\n    \n    // Basic functionality\n    const appContent = document.getElementById(\x27app-content\x27);\n    if (appContent) \x7b\n        appContent.innerHTML = \x27<p>Application is running successfully!</p>\x27;\n    \x7d\n\x7d);"
  | "LICENSE" =>
      "MIT License\n\nCopyright (c) 2024 Generated Application\n\nPermission is hereby granted, free of charge, to any person obtaining a copy\nof this software and associated documentation files (the \"Software\"), to deal\nin the Software without restriction, including without limitation the rights\nto use, copy, modify, merge, publish, distribute, sublicense, and/or sell\ncopies of the Software, and to permit persons to whom the Software is\nfurnished to do so, subject to the following conditions:\n\nThe above copyright notice and this permission notice shall be included in all\ncopies or substantial portions of the Software.\n\nTHE SOFTWARE IS PROVIDED \"AS IS\", WITHOUT WARRANTY OF ANY KIND, EXPRESS OR\nIMPLIED, INCLUDING BUT NOT LIMITED TO THE WARRANTIES OF MERCHANTABILITY,\nFITNESS FOR A PARTICULAR PURPOSE AND NONINFRINGEMENT. IN NO EVENT SHALL THE\nAUTHORS OR COPYRIGHT HOLDERS BE LIABLE FOR ANY CLAIM, DAMAGES OR OTHER\nLIABILITY, WHETHER IN AN ACTION OF CONTRACT, TORT OR OTHERWISE, ARISING FROM,\nOUT OF OR IN CONNECTION WITH THE SOFTWARE OR THE USE OR OTHER DEALINGS IN THE\nSOFTWARE."
  | _ => "# " ++ filename ++ "\n\nContent for " ++ filename

/-- `_generate_template_code_dict(brief)`. -/
def generate_template_code_dict (brief : String) : List (String × String) :=
  [("README.md",
    "# Generated App\n\n" ++ brief ++ "\n\n## Setup\nOpen index.html in a browser."),
   ("index.html", get_template_file "index.html" brief),
   ("style.css", get_template_file "style.css" brief),
   ("script.js", get_template_file "script.js" brief),
   ("LICENSE", get_template_file "LICENSE" brief)]

/-- `_generate_fallback_code(brief, checks)`. -/
def generate_fallback_code (brief : String) (_checks : List String) : List (String × String) :=
  generate_template_code_dict brief

/-- `_build_prompt(brief, checks, attachments, existing_repo)`. -/
def build_prompt (brief : String) (checks : List String)
    (_attachments : List String) (existing_repo : Option String) : String :=
  "\n        Create a complete web application based on this brief:\n        \n        BRIEF: " ++
  brief ++
  "\n        \n        REQUIREMENTS:\n        " ++
  String.intercalate "\n" (checks.map (fun check => "- " ++ check)) ++
  "\n        \n        " ++
  (match existing_repo with
   | some repo => "EXISTING REPOSITORY: " ++ repo
   | none => "NEW APPLICATION") ++
  "\n        \n        Generate the following files in JSON format:\n        \x7b\n            \"README.md\": \"Complete README with setup instructions\",\n            \"index.html\": \"Main HTML file\",\n            \"style.css\": \"CSS styles\",\n            \"script.js\": \"JavaScript functionality\",\n            \"LICENSE\": \"MIT License content\"\n        \x7d\n        \n        Ensure the code is:\n        - Complete and runnable\n        - Well-documented\n        - Follows best practices\n        - Meets all requirements\n        \n        Return only valid JSON:\n        "

/-- `required_files` from `_parse_generated_code`. -/
def required_files : List String :=
  ["README.md", "index.html", "style.css", "script.js", "LICENSE"]

/-- Lookup in a generated-code dict (`file in code_files`). -/
def sdictGet (d : List (String × String)) (k : String) : Option String :=
  match d with
  | [] => none
  | (k', v) :: rest => if k' == k then some v else sdictGet rest k

/-- `generated_text.find(c)`. -/
def strFind (s : String) (c : Char) : Option Nat :=
  s.toList.findIdx? (fun x => x == c)

/-- `generated_text.rfind(c)`. -/
def strRFind (s : String) (c : Char) : Option Nat :=
  match s.toList.reverse.findIdx? (fun x => x == c) with
  | some i => some (s.length - 1 - i)
  | none => none

/-- `generated_text[generated_text.find("\x7b") : generated_text.rfind("\x7d") + 1]`.
When either brace is absent Python's `find` returns `-1` and the slice is a
fragment `json.loads` rejects; those cases are modelled as `""`, which the
parse oracle likewise rejects. -/
def extractJson (s : String) : String :=
  match strFind s '{', strRFind s '}' with
  | some i, some j => ((s.toList.drop i).take (j + 1 - i)).asString
  | _, _ => ""

/-- Outcomes of the external pieces `generate_app_code` interacts with:
* `generatorAvailable` — `self.generator is not None` after `_initialize_model`;
* `generatorRun` — the Hugging Face pipeline call (raises, or returns the
  generated text);
* `jsonParse` — `json.loads` on the extracted JSON slice: `some d` is a parse
  yielding a string dict; `none` covers a parse error (the inner `except` of
  `_parse_generated_code`) and, combined with the outer `except` of
  `generate_app_code`, a parse not yielding a dict — both paths end in the
  same template dict;
* `jsonDumps` — `json.dumps` used by `_generate_template_code`. -/
structure GenEnv where
  generatorAvailable : Bool
  generatorRun : Except String String
  jsonParse : String → Option (List (String × String))
  jsonDumps : List (String × String) → String

/-- `_generate_template_code(brief, checks)` = `json.dumps` of the template
dict. -/
def generate_template_code (env : GenEnv) (brief : String) (_checks : List String) : String :=
  env.jsonDumps (generate_template_code_dict brief)

/-- The `for file in required_files: if file not in code_files:
code_files[file] = ...` loop of `_parse_generated_code` (dict insertion
appends at the end). -/
def ensure_files (brief : String) : List String → List (String × String) → List (String × String)
  | [], cf => cf
  | file :: rest, cf =>
    ensure_files brief rest
      (if (sdictGet cf file).isSome then cf
       else cf ++ [(file, get_template_file file brief)])

/-- `_parse_generated_code(generated_text, brief)`: extract and parse the
JSON slice (template dict on failure), then ensure all required files are
present. -/
def parse_generated_code (env : GenEnv) (generated_text brief : String) :
    List (String × String) :=
  let code_files :=
    match env.jsonParse (extractJson generated_text) with
    | some d => d
    | none => generate_template_code_dict brief
  ensure_files brief required_files code_files

/-- `generate_app_code(brief, checks, attachments, existing_repo)`: build the
prompt, obtain generated text from the pipeline (template JSON when no
generator is available), parse it; any exception inside the `try` yields
`_generate_fallback_code`. -/
def generate_app_code (env : GenEnv) (brief : String) (checks : List String)
    (attachments : List String) (existing_repo : Option String) :
    List (String × String) :=
  let _prompt := build_prompt brief checks attachments existing_repo
  if env.generatorAvailable then
    match env.generatorRun with
    | .ok generated_text => parse_generated_code env generated_text brief
    | .error _ => generate_fallback_code brief checks
  else
    parse_generated_code env (generate_template_code env brief checks) brief

/-! ### Helper lemmas -/

theorem verify_secret_of_unbound (ss : SecretStore) (email secret : String)
    (h : sGet ss email = none) :
    verify_secret ss email secret = (true, (email, secret) :: ss) := by
  simp [verify_secret, h]

theorem verify_secret_of_bound (ss : SecretStore) (email secret s : String)
    (h : sGet ss email = some s) :
    verify_secret ss email secret = (s == secret, ss) := by
  simp [verify_secret, h]

theorem sGet_verify_of_bound (ss : SecretStore) (email s : String)
    (h : sGet ss email = some s) (e sec : String) :
    sGet (verify_secret ss e sec).2 email = some s := by
  unfold verify_secret
  cases hg : sGet ss e with
  | none =>
    simp only [sGet]
    by_cases he : (e == email) = true
    · have : e = email := by simpa using he
      subst this
      rw [h] at hg
      exact absurd hg (by simp)
    · simp [he, h]
  | some expected => simpa using h

theorem sGet_runVerifies_of_bound (ss : SecretStore) (email s : String)
    (h : sGet ss email = some s) (calls : List (String × String)) :
    sGet (runVerifies ss calls) email = some s := by
  induction calls generalizing ss with
  | nil => simpa [runVerifies] using h
  | cons c rest ih =>
    obtain ⟨e, sec⟩ := c
    exact ih _ (sGet_verify_of_bound ss email s h e sec)

/-! ### C6 — Secret Registry is trust-on-first-use with an immutable binding -/

/-- C6: for every identity, the first `verify_secret` call with any secret
binds that secret and returns true; every subsequent call for the same
identity returns true iff the supplied secret equals the bound secret and
leaves the store unchanged; and once a secret is bound to an identity, no
sequence of further `verify_secret` calls ever changes that binding. -/
theorem verify_secret_trust_on_first_use (ss : SecretStore) (email secret : String) :
    (sGet ss email = none →
       (verify_secret ss email secret).1 = true ∧
       sGet (verify_secret ss email secret).2 email = some secret) ∧
    (∀ s, sGet ss email = some s →
       ((verify_secret ss email secret).1 = true ↔ secret = s) ∧
       (verify_secret ss email secret).2 = ss) ∧
    (∀ s, sGet ss email = some s → ∀ calls : List (String × String),
       sGet (runVerifies ss calls) email = some s) := by
  refine ⟨fun h => ?_, fun s h => ?_, fun s h calls => sGet_runVerifies_of_bound ss email s h calls⟩
  · rw [verify_secret_of_unbound ss email secret h]
    simp [sGet]
  · rw [verify_secret_of_bound ss email secret s h]
    constructor
    · constructor
      · intro hb
        have : s = secret := by simpa using hb
        exact this.symm
      · intro hb
        subst hb
        simp
    · rfl

/-- Witness for C6 at a concrete store and identity. -/
theorem verify_secret_trust_on_first_use_witness :
    sGet (runVerifies [("a@x.com", "s1")]
            [("a@x.com", "s2"), ("b@y.com", "t1"), ("a@x.com", "s1")]) "a@x.com"
      = some "s1" :=
  (verify_secret_trust_on_first_use [("a@x.com", "s1")] "a@x.com" "s2").2.2
    "s1" (by decide) _

/-! ### C1 — the dispatchers' error status codes

`deploy_app` raises `HTTPException(401, "Invalid secret")` and `revise_app`
raises `HTTPException(404, "Original task not found")` inside a
`try: ... except Exception as e: raise HTTPException(500, str(e))` block;
`HTTPException` subclasses `Exception`, so both are caught and re-raised as
HTTP 500.  The claimed 401 (bad secret) and 404 (missing round-1 record)
never reach the client, and 500 is returned on these validation failures,
not only on unexpected dispatcher errors. -/

/-- C1: at a concrete request whose secret check fails, `deploy_app` responds
500 (not 401); at a concrete revision request with no round-1 record,
`revise_app` responds 500 (not 404), in both cases carrying the swallowed
exception's text as the detail. -/
theorem dispatcher_error_codes_are_500 :
    (deploy_app [] [("a@x.com", "s1")]
        ⟨"a@x.com", "wrong", "alpha", 1, "n0", "todo app", ["must load"], "http://eval/", []⟩).status_code
      = 500 ∧
    (deploy_app [] [("a@x.com", "s1")]
        ⟨"a@x.com", "wrong", "alpha", 1, "n0", "todo app", ["must load"], "http://eval/", []⟩).detail
      = "401: Invalid secret" ∧
    (revise_app [] []
        ⟨"a@x.com", "s1", "alpha", 2, "n0", "todo app", ["must load"], "http://eval/", []⟩).status_code
      = 500 ∧
    (revise_app [] []
        ⟨"a@x.com", "s1", "alpha", 2, "n0", "todo app", ["must load"], "http://eval/", []⟩).detail
      = "404: Original task not found" := by
  refine ⟨?_, ?_, ?_, ?_⟩ <;> rfl

/-! ### C7 — revision acceptance precondition is existence of the round-1 record -/

/-- C7: for a revision request whose secret check passes, the handler rejects
with the "Original task not found" detail iff no record for `{task}-1` exists
in the task store, and accepts (body `status: "accepted"`) iff such a record
exists — whatever status that record currently has. -/
theorem revise_rejects_iff_no_round1 (ts : Store) (ss : SecretStore) (r : RevisionRequest)
    (h : (verify_secret ss r.email r.secret).1 = true) :
    ((revise_app ts ss r).detail = "404: Original task not found" ↔
       storeGet ts (r.task ++ "-1") = none) ∧
    ((revise_app ts ss r).body_status = "accepted" ↔
       (storeGet ts (r.task ++ "-1")).isSome = true) := by
  unfold revise_app
  cases hg : storeGet ts (r.task ++ "-1") with
  | none => simp [hg, h]
  | some rec => simp [hg, h]

/-- Witness for C7: a store holding `alpha-1` still at status `processing`
accepts the round-2 revision; the empty store rejects it. -/
theorem revise_rejects_iff_no_round1_witness :
    ((revise_app [("alpha-1", ⟨[], "processing"⟩)] [("a@x.com", "s1")]
        ⟨"a@x.com", "s1", "alpha", 2, "n0", "b", [], "u", []⟩).body_status = "accepted" ↔
       (storeGet [("alpha-1", ⟨[], "processing"⟩)] ("alpha" ++ "-1")).isSome = true) :=
  (revise_rejects_iff_no_round1 [("alpha-1", ⟨[], "processing"⟩)] [("a@x.com", "s1")]
      ⟨"a@x.com", "s1", "alpha", 2, "n0", "b", [], "u", []⟩ (by decide)).2

/-! ### Retry-loop step lemmas -/

theorem submitFrom_of_ok (resp : Nat → Option Nat) (attempt : Nat)
    (hlt : attempt < max_retries) (hok : attemptOk (resp attempt) = true) :
    submitFrom resp attempt = ⟨true, 1, []⟩ := by
  rw [submitFrom]
  simp [hlt, hok]

theorem submitFrom_of_fail (resp : Nat → Option Nat) (attempt : Nat)
    (hlt : attempt < max_retries) (hfail : attemptOk (resp attempt) = false) :
    submitFrom resp attempt =
      ⟨(submitFrom resp (attempt + 1)).result,
       (submitFrom resp (attempt + 1)).attempts + 1,
       (if attempt < max_retries - 1 then [base_delay * 2 ^ attempt] else []) ++
         (submitFrom resp (attempt + 1)).delays⟩ := by
  rw [submitFrom]
  simp [hlt, hfail]

theorem submitFrom_of_done (resp : Nat → Option Nat) (attempt : Nat)
    (hge : ¬ attempt < max_retries) :
    submitFrom resp attempt = ⟨false, 0, []⟩ := by
  rw [submitFrom]
  simp [hge]

/-! ### C4 — exhaustion: 5 attempts, delays 1,2,4,8, returns false -/

/-- C4: when every attempt fails (no response has status 200),
`submit_evaluation` makes exactly 5 attempts, sleeps 1, 2, 4 and 8 seconds
between consecutive attempts (= `base_delay * 2 ^ attempt` before each retry,
none after the final attempt), and returns false. -/
theorem submit_evaluation_exhaustion (resp : Nat → Option Nat)
    (h : ∀ k, k < max_retries → attemptOk (resp k) = false) :
    submit_evaluation resp = ⟨false, 5, [1, 2, 4, 8]⟩ := by
  have e5 : submitFrom resp 5 = ⟨false, 0, []⟩ := submitFrom_of_done resp 5 (by decide)
  have e4 : submitFrom resp 4 = ⟨false, 1, []⟩ := by
    rw [submitFrom_of_fail resp 4 (by decide) (h 4 (by decide)), e5]
    decide
  have e3 : submitFrom resp 3 = ⟨false, 2, [8]⟩ := by
    rw [submitFrom_of_fail resp 3 (by decide) (h 3 (by decide)), e4]
    decide
  have e2 : submitFrom resp 2 = ⟨false, 3, [4, 8]⟩ := by
    rw [submitFrom_of_fail resp 2 (by decide) (h 2 (by decide)), e3]
    decide
  have e1 : submitFrom resp 1 = ⟨false, 4, [2, 4, 8]⟩ := by
    rw [submitFrom_of_fail resp 1 (by decide) (h 1 (by decide)), e2]
    decide
  have e0 : submitFrom resp 0 = ⟨false, 5, [1, 2, 4, 8]⟩ := by
    rw [submitFrom_of_fail resp 0 (by decide) (h 0 (by decide)), e1]
    decide
  simpa [submit_evaluation] using e0

/-- Witness for C4: a responder that always answers 503. -/
theorem submit_evaluation_exhaustion_witness :
    submit_evaluation (fun _ => some 503) = ⟨false, 5, [1, 2, 4, 8]⟩ :=
  submit_evaluation_exhaustion (fun _ => some 503) (fun _ _ => rfl)

/-! ### C5 — first success stops the loop with no further delay -/

/-- C5: an attempt succeeds iff the endpoint answers with status 200 (the
success status the code tests for), and if attempt index `k` (0-based; the
claim's attempt `k+1`) is the first with a success status, `submit_evaluation`
returns true after exactly `k+1` attempts, with the `k` backoff delays
`base_delay * 2 ^ j` (`j < k`) between them and no delay after the
successful attempt. -/
theorem submit_evaluation_first_success (resp : Nat → Option Nat) (k : Nat)
    (hk : k < max_retries)
    (hok : attemptOk (resp k) = true)
    (hf : ∀ j, j < k → attemptOk (resp j) = false) :
    (∀ r, attemptOk r = true ↔ r = some 200) ∧
    submit_evaluation resp =
      ⟨true, k + 1, (List.range k).map (fun j => base_delay * 2 ^ j)⟩ := by
  constructor
  · intro r
    rcases r with _ | s
    · simp [attemptOk]
    · simp [attemptOk]
  · have hk5 : k < 5 := hk
    interval_cases k
    · have e0 := submitFrom_of_ok resp 0 (by decide) hok
      unfold submit_evaluation
      rw [e0]
      decide
    · have e1 := submitFrom_of_ok resp 1 (by decide) hok
      have e0 : submitFrom resp 0 = ⟨true, 2, [1]⟩ := by
        rw [submitFrom_of_fail resp 0 (by decide) (hf 0 (by decide)), e1]
        decide
      unfold submit_evaluation
      rw [e0]
      decide
    · have e2 := submitFrom_of_ok resp 2 (by decide) hok
      have e1 : submitFrom resp 1 = ⟨true, 2, [2]⟩ := by
        rw [submitFrom_of_fail resp 1 (by decide) (hf 1 (by decide)), e2]
        decide
      have e0 : submitFrom resp 0 = ⟨true, 3, [1, 2]⟩ := by
        rw [submitFrom_of_fail resp 0 (by decide) (hf 0 (by decide)), e1]
        decide
      unfold submit_evaluation
      rw [e0]
      decide
    · have e3 := submitFrom_of_ok resp 3 (by decide) hok
      have e2 : submitFrom resp 2 = ⟨true, 2, [4]⟩ := by
        rw [submitFrom_of_fail resp 2 (by decide) (hf 2 (by decide)), e3]
        decide
      have e1 : submitFrom resp 1 = ⟨true, 3, [2, 4]⟩ := by
        rw [submitFrom_of_fail resp 1 (by decide) (hf 1 (by decide)), e2]
        decide
      have e0 : submitFrom resp 0 = ⟨true, 4, [1, 2, 4]⟩ := by
        rw [submitFrom_of_fail resp 0 (by decide) (hf 0 (by decide)), e1]
        decide
      unfold submit_evaluation
      rw [e0]
      decide
    · have e4 := submitFrom_of_ok resp 4 (by decide) hok
      have e3 : submitFrom resp 3 = ⟨true, 2, [8]⟩ := by
        rw [submitFrom_of_fail resp 3 (by decide) (hf 3 (by decide)), e4]
        decide
      have e2 : submitFrom resp 2 = ⟨true, 3, [4, 8]⟩ := by
        rw [submitFrom_of_fail resp 2 (by decide) (hf 2 (by decide)), e3]
        decide
      have e1 : submitFrom resp 1 = ⟨true, 4, [2, 4, 8]⟩ := by
        rw [submitFrom_of_fail resp 1 (by decide) (hf 1 (by decide)), e2]
        decide
      have e0 : submitFrom resp 0 = ⟨true, 5, [1, 2, 4, 8]⟩ := by
        rw [submitFrom_of_fail resp 0 (by decide) (hf 0 (by decide)), e1]
        decide
      unfold submit_evaluation
      rw [e0]
      decide

/-- Witness for C5: a responder that answers 500, 500, then 200 — success on
the third attempt, two delays, no delay after it. -/
theorem submit_evaluation_first_success_witness :
    submit_evaluation (fun n => if n < 2 then some 500 else some 200) =
      ⟨true, 2 + 1, (List.range 2).map (fun j => base_delay * 2 ^ j)⟩ :=
  (submit_evaluation_first_success (fun n => if n < 2 then some 500 else some 200) 2
      (by decide) (by decide)
      (fun j hj => by interval_cases j <;> decide)).2

/-! ### C3 — build pipeline terminal statuses -/

/-- C3: in a build pipeline run, a raising generation adapter yields exactly
one status write `"failed"` with the publication adapter never invoked; a
raising publication adapter yields `"failed"`; with generation and
publication succeeding, the notifier returning true yields `"completed"` and
false yields `"evaluation_failed"`; and every run writes exactly one status,
always terminal, always for the run's own task id. -/
theorem process_build_request_statuses (env : PipelineEnv) (ts : Store) (r : BuildRequest) :
    (∀ e, env.genResult = .error e →
       (process_build_request env ts r).statusWrites =
         [(r.task ++ "-" ++ toString r.round, "failed")] ∧
       (process_build_request env ts r).pubCalled = false ∧
       (process_build_request env ts r).notifyCalled = false) ∧
    (∀ code e, env.genResult = .ok code → env.pubResult = .error e →
       (process_build_request env ts r).statusWrites =
         [(r.task ++ "-" ++ toString r.round, "failed")]) ∧
    (∀ code urls, env.genResult = .ok code → env.pubResult = .ok urls →
       env.notifyResult = true →
       (process_build_request env ts r).statusWrites =
         [(r.task ++ "-" ++ toString r.round, "completed")]) ∧
    (∀ code urls, env.genResult = .ok code → env.pubResult = .ok urls →
       env.notifyResult = false →
       (process_build_request env ts r).statusWrites =
         [(r.task ++ "-" ++ toString r.round, "evaluation_failed")]) ∧
    (process_build_request env ts r).statusWrites.length = 1 ∧
    (∀ w ∈ (process_build_request env ts r).statusWrites,
       w.1 = r.task ++ "-" ++ toString r.round ∧
       (w.2 = "completed" ∨ w.2 = "evaluation_failed" ∨ w.2 = "failed")) := by
  refine ⟨fun e he => ?_, fun code e hg hp => ?_, fun code urls hg hp hn => ?_,
    fun code urls hg hp hn => ?_, ?_, ?_⟩
  · simp [process_build_request, he]
  · simp [process_build_request, hg, hp]
  · obtain ⟨ru, pu⟩ := urls
    simp [process_build_request, hg, hp, hn]
  · obtain ⟨ru, pu⟩ := urls
    simp [process_build_request, hg, hp, hn]
  · rcases hg : env.genResult with e | code
    · simp [process_build_request, hg]
    · rcases hp : env.pubResult with e | ⟨ru, pu⟩
      · simp [process_build_request, hg, hp]
      · rcases hn : env.notifyResult <;> simp [process_build_request, hg, hp, hn]
  · rcases hg : env.genResult with e | code
    · simp [process_build_request, hg]
    · rcases hp : env.pubResult with e | ⟨ru, pu⟩
      · simp [process_build_request, hg, hp]
      · rcases hn : env.notifyResult <;> simp [process_build_request, hg, hp, hn]

/-- Witness for C3: a run whose generation adapter raises writes exactly
`[("alpha-1", "failed")]` and never calls the publication adapter. -/
theorem process_build_request_statuses_witness :
    (process_build_request ⟨[], .error "boom", .ok ("u", "p"), .ok "sha", true, "ab12cd34"⟩
        [] ⟨"a@x.com", "s1", "alpha", 1, "n0", "b", [], "u", []⟩).statusWrites =
      [("alpha" ++ "-" ++ toString 1, "failed")] ∧
    (process_build_request ⟨[], .error "boom", .ok ("u", "p"), .ok "sha", true, "ab12cd34"⟩
        [] ⟨"a@x.com", "s1", "alpha", 1, "n0", "b", [], "u", []⟩).pubCalled = false ∧
    (process_build_request ⟨[], .error "boom", .ok ("u", "p"), .ok "sha", true, "ab12cd34"⟩
        [] ⟨"a@x.com", "s1", "alpha", 1, "n0", "b", [], "u", []⟩).notifyCalled = false :=
  (process_build_request_statuses ⟨[], .error "boom", .ok ("u", "p"), .ok "sha", true, "ab12cd34"⟩
      [] ⟨"a@x.com", "s1", "alpha", 1, "n0", "b", [], "u", []⟩).1 "boom" rfl

/-! ### C9 — commit-id read-back is best-effort -/

/-- C9: when the provider lookup of the latest commit fails,
`get_latest_commit` returns the sentinel `"unknown"` instead of raising, and
a build run whose generation and publication succeeded still reaches the
notifier, carrying the sentinel in its payload — the read-back never aborts
the run. -/
theorem get_latest_commit_sentinel (env : PipelineEnv) (ts : Store) (r : BuildRequest)
    (e : String) (hc : env.commitLookup = .error e)
    (hg : env.genResult.isOk = true) (hp : env.pubResult.isOk = true) :
    get_latest_commit env.commitLookup = "unknown" ∧
    (process_build_request env ts r).notifyCalled = true ∧
    (∀ pl, (process_build_request env ts r).payload = some pl →
       pl.commit_sha = "unknown") := by
  rcases hge : env.genResult with e' | code
  · rw [hge] at hg
    simp [Except.isOk, Except.toBool] at hg
  · rcases hpe : env.pubResult with e' | ⟨ru, pu⟩
    · rw [hpe] at hp
      simp [Except.isOk, Except.toBool] at hp
    · refine ⟨by simp [hc, get_latest_commit], ?_, ?_⟩
      · rcases hn : env.notifyResult <;>
          simp [process_build_request, hge, hpe, hn]
      · intro pl hpl
        rcases hn : env.notifyResult <;>
          · simp [process_build_request, hge, hpe, hn] at hpl
            rw [← hpl]
            simp [hc, get_latest_commit]

/-- Witness for C9 at a failing lookup with otherwise successful
collaborators. -/
theorem get_latest_commit_sentinel_witness :
    get_latest_commit (PipelineEnv.commitLookup
        ⟨[], .ok [("index.html", "x")], .ok ("u", "p"), .error "GithubException", true, "ab12cd34"⟩)
      = "unknown" :=
  (get_latest_commit_sentinel
      ⟨[], .ok [("index.html", "x")], .ok ("u", "p"), .error "GithubException", true, "ab12cd34"⟩
      [] ⟨"a@x.com", "s1", "alpha", 1, "n0", "b", [], "u", []⟩
      "GithubException" rfl rfl rfl).1

/-! ### Store lemmas for the revision claim -/

theorem storeGet_storeSet_self (ts : Store) (k : String) (rec : TaskRecord) :
    storeGet (storeSet ts k rec) k = some rec := by
  simp [storeGet, storeSet]

theorem storeGet_setStatus_request (ts : Store) (k st tid : String) :
    (storeGet (setStatus ts k st) tid).map TaskRecord.request =
      (storeGet ts tid).map TaskRecord.request := by
  induction ts with
  | nil => rfl
  | cons p rest ih =>
    obtain ⟨q, rec⟩ := p
    simp only [setStatus]
    by_cases hq : (q == k) = true
    · rw [if_pos hq]
      by_cases ht : (q == tid) = true
      · simp [storeGet, ht]
      · simp [storeGet, ht, ih]
    · rw [if_neg hq]
      by_cases ht : (q == tid) = true
      · simp [storeGet, ht]
      · simp [storeGet, ht, ih]

/-- Every branch of a build run only rewrites the status of the run's own
task id: the stored request payloads are untouched (in particular, no
repository name is ever written back). -/
theorem process_build_request_store_shape (env : PipelineEnv) (ts : Store) (r : BuildRequest) :
    ∃ x, (process_build_request env ts r).store =
      setStatus ts (r.task ++ "-" ++ toString r.round) x := by
  rcases hg : env.genResult with e | code
  · exact ⟨"failed", by simp [process_build_request, hg]⟩
  · rcases hp : env.pubResult with e | ⟨ru, pu⟩
    · exact ⟨"failed", by simp [process_build_request, hg, hp]⟩
    · rcases hn : env.notifyResult
      · exact ⟨"evaluation_failed", by simp [process_build_request, hg, hp, hn]⟩
      · exact ⟨"completed", by simp [process_build_request, hg, hp, hn]⟩

/-- A pydantic `BuildRequest.dict()` has no `repo_name` key. -/
theorem dictGet_buildDict_repo_name (br : BuildRequest) :
    dictGet br.dict "repo_name" = none := rfl

/-! ### C2 — every revision pipeline run fails before calling any adapter -/

/-- C2: after an accepted round-1 deploy (which stores only the fields of the
inbound `BuildRequest` — no `repo_name`) and any build pipeline run for it
(which only rewrites the status), the round-1 record still carries no
repository name, so a revision pipeline run for the same task raises before
calling the generation or publication adapter and terminates with exactly
the status write `"failed"`. -/
theorem revision_pipeline_always_fails
    (env env' : PipelineEnv) (ts : Store) (ss : SecretStore)
    (br : BuildRequest) (rr : RevisionRequest)
    (hround : br.round = 1) (htask : rr.task = br.task)
    (hsec : (verify_secret ss br.email br.secret).1 = true) :
    ((storeGet (process_build_request env (deploy_app ts ss br).taskStore br).store
        (rr.task ++ "-1")).map (fun rec => dictGet rec.request "repo_name") = some none) ∧
    (process_revision_request env'
        (process_build_request env (deploy_app ts ss br).taskStore br).store rr).statusWrites
      = [(rr.task ++ "-" ++ toString rr.round, "failed")] ∧
    (process_revision_request env'
        (process_build_request env (deploy_app ts ss br).taskStore br).store rr).genCalled
      = false ∧
    (process_revision_request env'
        (process_build_request env (deploy_app ts ss br).taskStore br).store rr).pubCalled
      = false ∧
    (process_revision_request env'
        (process_build_request env (deploy_app ts ss br).taskStore br).store rr).notifyCalled
      = false := by
  have hkey : br.task ++ "-" ++ toString br.round = br.task ++ "-1" := by
    rw [hround, String.append_assoc]
    rfl
  have hds : (deploy_app ts ss br).taskStore =
      storeSet ts (br.task ++ "-" ++ toString br.round) ⟨br.dict, "processing"⟩ := by
    simp [deploy_app, hsec]
  have h1 : storeGet (deploy_app ts ss br).taskStore (br.task ++ "-1") =
      some ⟨br.dict, "processing"⟩ := by
    rw [hds, ← hkey]
    exact storeGet_storeSet_self ts _ _
  obtain ⟨x, hx⟩ := process_build_request_store_shape env (deploy_app ts ss br).taskStore br
  have h2 : (storeGet (process_build_request env (deploy_app ts ss br).taskStore br).store
      (br.task ++ "-1")).map TaskRecord.request = some br.dict := by
    rw [hx, storeGet_setStatus_request, h1]
    rfl
  obtain ⟨rec, hrec, hreq⟩ : ∃ rec,
      storeGet (process_build_request env (deploy_app ts ss br).taskStore br).store
        (br.task ++ "-1") = some rec ∧ rec.request = br.dict := by
    cases hsg : storeGet (process_build_request env (deploy_app ts ss br).taskStore br).store
        (br.task ++ "-1") with
    | none => rw [hsg] at h2; exact absurd h2 (by simp)
    | some rec =>
      refine ⟨rec, rfl, ?_⟩
      rw [hsg] at h2
      simpa using h2
  have hrec' : storeGet (process_build_request env (deploy_app ts ss br).taskStore br).store
      (rr.task ++ "-1") = some rec := by
    rw [htask]
    exact hrec
  have hnone : dictGet rec.request "repo_name" = none := by
    rw [hreq]
    exact dictGet_buildDict_repo_name br
  refine ⟨by rw [hrec']; simp [hnone], ?_, ?_, ?_, ?_⟩ <;>
    simp [process_revision_request, hrec', hnone, isTruthy]

/-- Witness for C2 at concrete stores, requests and collaborator outcomes. -/
theorem revision_pipeline_always_fails_witness :
    (process_revision_request ⟨[], .ok [("index.html", "y")], .ok ("u2", "p2"), .ok "sha2", true, "ef56ab78"⟩
        (process_build_request ⟨[], .ok [("index.html", "x")], .ok ("u", "p"), .ok "sha", true, "ab12cd34"⟩
          (deploy_app [] [] ⟨"a@x.com", "s1", "alpha", 1, "n0", "todo app", ["must load"], "http://eval/", []⟩).taskStore
          ⟨"a@x.com", "s1", "alpha", 1, "n0", "todo app", ["must load"], "http://eval/", []⟩).store
        ⟨"a@x.com", "s1", "alpha", 2, "n1", "add dark mode", [], "http://eval/", []⟩).statusWrites
      = [("alpha" ++ "-" ++ toString 2, "failed")] :=
  (revision_pipeline_always_fails
      ⟨[], .ok [("index.html", "x")], .ok ("u", "p"), .ok "sha", true, "ab12cd34"⟩
      ⟨[], .ok [("index.html", "y")], .ok ("u2", "p2"), .ok "sha2", true, "ef56ab78"⟩
      [] [] ⟨"a@x.com", "s1", "alpha", 1, "n0", "todo app", ["must load"], "http://eval/", []⟩
      ⟨"a@x.com", "s1", "alpha", 2, "n1", "add dark mode", [], "http://eval/", []⟩
      rfl rfl rfl).2.1

/-! ### Upsert lemmas for `update_repository` -/

theorem rGet_rUpdate_self (repo : RepoFiles) (f c : String) (hist : List String)
    (h : rGet repo f = some hist) :
    rGet (rUpdate repo f c) f = some (c :: hist) := by
  induction repo with
  | nil => simp [rGet] at h
  | cons p rest ih =>
    obtain ⟨g, gh⟩ := p
    simp only [rUpdate]
    by_cases hg : (g == f) = true
    · rw [rGet, if_pos hg] at h
      cases h
      rw [if_pos hg]
      simp [rGet, hg]
    · rw [rGet, if_neg hg] at h
      rw [if_neg hg]
      simp [rGet, hg, ih h]

theorem rGet_rUpdate_ne (repo : RepoFiles) (f g c : String) (h : (g == f) = false) :
    rGet (rUpdate repo f c) g = rGet repo g := by
  have hgf : g ≠ f := by simpa using h
  induction repo with
  | nil => rfl
  | cons p rest ih =>
    obtain ⟨q, qh⟩ := p
    simp only [rUpdate]
    by_cases hq : (q == f) = true
    · have hqf : q = f := by simpa using hq
      have hqg : (q == g) = false := by
        subst hqf
        simpa using fun he => hgf he.symm
      rw [if_pos hq]
      simp [rGet, hqg, ih]
    · rw [if_neg hq]
      by_cases hqg : (q == g) = true
      · simp [rGet, hqg]
      · simp [rGet, hqg, ih]

theorem rGet_upsertFile_self (repo : RepoFiles) (f c : String) :
    rGet (upsertFile repo f c) f = some (c :: (rGet repo f).getD []) := by
  unfold upsertFile
  cases h : rGet repo f with
  | none => simp [h, rGet]
  | some hist => simp [h, rGet_rUpdate_self repo f c hist h]

theorem rGet_upsertFile_ne (repo : RepoFiles) (f g c : String) (h : (g == f) = false) :
    rGet (upsertFile repo f c) g = rGet repo g := by
  have hfg : (f == g) = false := by
    have hg : g ≠ f := by simpa using h
    simpa using fun he => hg he.symm
  unfold upsertFile
  cases hf : rGet repo f with
  | none => simp [rGet, hfg]
  | some hist => simp [rGet_rUpdate_ne repo f g c h]

theorem update_repository_cons (repo : RepoFiles) (f c : String)
    (rest : List (String × String)) :
    update_repository repo ((f, c) :: rest) = update_repository (upsertFile repo f c) rest := rfl

theorem rGet_update_repository_not_mem (code : List (String × String)) :
    ∀ (repo : RepoFiles) (g : String), g ∉ code.map Prod.fst →
      rGet (update_repository repo code) g = rGet repo g := by
  induction code with
  | nil => intro repo g _; rfl
  | cons p rest ih =>
    intro repo g h
    obtain ⟨f, c⟩ := p
    have hg : (g == f) = false := by
      have : g ≠ f := by
        intro hgf
        exact h (by simp [hgf])
      simpa using this
    have hrest : g ∉ rest.map Prod.fst := by
      intro hmem
      exact h (by simp [hmem])
    rw [update_repository_cons, ih (upsertFile repo f c) g hrest,
      rGet_upsertFile_ne repo f g c hg]

theorem rGet_update_repository_mem (code : List (String × String)) :
    (code.map Prod.fst).Nodup →
    ∀ (repo : RepoFiles) (f c : String), (f, c) ∈ code →
      rGet (update_repository repo code) f = some (c :: (rGet repo f).getD []) := by
  induction code with
  | nil => intro _ repo f c hmem; simp at hmem
  | cons p rest ih =>
    intro hnd repo f c hmem
    obtain ⟨f', c'⟩ := p
    have hnd1 : f' ∉ rest.map Prod.fst := by
      simp only [List.map_cons, List.nodup_cons] at hnd
      exact hnd.1
    have hnd2 : (rest.map Prod.fst).Nodup := by
      simp only [List.map_cons, List.nodup_cons] at hnd
      exact hnd.2
    rcases List.mem_cons.mp hmem with hhead | htail
    · have h1 : f = f' := congrArg Prod.fst hhead
      have h2 : c = c' := congrArg Prod.snd hhead
      subst h1
      subst h2
      rw [update_repository_cons,
        rGet_update_repository_not_mem rest (upsertFile repo f c) f hnd1]
      exact rGet_upsertFile_self repo f c
    · have hff' : (f == f') = false := by
        have hf : f ∈ rest.map Prod.fst := List.mem_map.mpr ⟨(f, c), htail, rfl⟩
        have hne : f ≠ f' := by
          intro heq
          exact hnd1 (heq ▸ hf)
        simpa using hne
      rw [update_repository_cons, ih hnd2 (upsertFile repo f' c') f c htail,
        rGet_upsertFile_ne repo f' f c' hff']

/-! ### C8 — `update_repository` is a per-file upsert with no deletions -/

/-- C8: for a generated file dict `code` (distinct filenames, as in a Python
dict) and any repository state, after `update_repository` every generated
filename maps to its new content on top of whatever history it had (update
if it existed, create otherwise), and every file not in the generated set is
exactly as before — stale files are neither modified nor deleted. -/
theorem update_repository_upsert (repo : RepoFiles) (code : List (String × String))
    (hnd : (code.map Prod.fst).Nodup) :
    (∀ f c, (f, c) ∈ code →
       rGet (update_repository repo code) f = some (c :: (rGet repo f).getD [])) ∧
    (∀ g, g ∉ code.map Prod.fst →
       rGet (update_repository repo code) g = rGet repo g) :=
  ⟨fun f c hmem => rGet_update_repository_mem code hnd repo f c hmem,
   fun g h => rGet_update_repository_not_mem code repo g h⟩

/-- Witness for C8: updating `{index.html, style.css}` into a repository that
already has `index.html` (with history) and a stale `old.txt`. -/
theorem update_repository_upsert_witness :
    rGet (update_repository [("index.html", ["v1"]), ("old.txt", ["o1"])]
        [("index.html", "v2"), ("style.css", "s1")]) "index.html"
      = some ("v2" :: (rGet [("index.html", ["v1"]), ("old.txt", ["o1"])] "index.html").getD []) ∧
    rGet (update_repository [("index.html", ["v1"]), ("old.txt", ["o1"])]
        [("index.html", "v2"), ("style.css", "s1")]) "old.txt"
      = rGet [("index.html", ["v1"]), ("old.txt", ["o1"])] "old.txt" :=
  ⟨(update_repository_upsert [("index.html", ["v1"]), ("old.txt", ["o1"])]
      [("index.html", "v2"), ("style.css", "s1")] (by decide)).1 "index.html" "v2" (by decide),
   (update_repository_upsert [("index.html", ["v1"]), ("old.txt", ["o1"])]
      [("index.html", "v2"), ("style.css", "s1")] (by decide)).2 "old.txt" (by decide)⟩

/-! ### Lemmas about the required-files loop -/

theorem sdictGet_append_left (d e : List (String × String)) (k : String)
    (h : (sdictGet d k).isSome = true) :
    sdictGet (d ++ e) k = sdictGet d k := by
  induction d with
  | nil => simp [sdictGet] at h
  | cons p rest ih =>
    obtain ⟨k', v⟩ := p
    by_cases hk : (k' == k) = true
    · simp [sdictGet, hk]
    · rw [sdictGet, if_neg hk] at h
      simp [sdictGet, hk, ih h]

theorem sdictGet_append_right (d e : List (String × String)) (k : String)
    (h : sdictGet d k = none) :
    sdictGet (d ++ e) k = sdictGet e k := by
  induction d with
  | nil => rfl
  | cons p rest ih =>
    obtain ⟨k', v⟩ := p
    by_cases hk : (k' == k) = true
    · rw [sdictGet, if_pos hk] at h
      exact absurd h (by simp)
    · rw [sdictGet, if_neg hk] at h
      simp [sdictGet, hk, ih h]

theorem ensure_files_preserves (brief : String) (files : List String) :
    ∀ (cf : List (String × String)) (k : String), (sdictGet cf k).isSome = true →
      (sdictGet (ensure_files brief files cf) k).isSome = true := by
  induction files with
  | nil => intro cf k h; exact h
  | cons file rest ih =>
    intro cf k h
    simp only [ensure_files]
    by_cases hp : (sdictGet cf file).isSome = true
    · rw [if_pos hp]
      exact ih cf k h
    · rw [if_neg hp]
      apply ih
      rw [sdictGet_append_left cf _ k h]
      exact h

theorem ensure_files_adds (brief : String) (files : List String) :
    ∀ (cf : List (String × String)) (k : String), k ∈ files →
      (sdictGet (ensure_files brief files cf) k).isSome = true := by
  induction files with
  | nil => intro cf k h; simp at h
  | cons file rest ih =>
    intro cf k h
    simp only [ensure_files]
    rcases List.mem_cons.mp h with rfl | htail
    · by_cases hp : (sdictGet cf k).isSome = true
      · rw [if_pos hp]
        exact ensure_files_preserves brief rest cf k hp
      · rw [if_neg hp]
        apply ensure_files_preserves brief rest
        have hn : sdictGet cf k = none := by
          cases hcf : sdictGet cf k with
          | none => rfl
          | some v => rw [hcf] at hp; simp at hp
        rw [sdictGet_append_right cf _ k hn]
        simp [sdictGet]
    · by_cases hp : (sdictGet cf file).isSome = true
      · rw [if_pos hp]
        exact ih cf k htail
      · rw [if_neg hp]
        exact ih _ k htail

/-! ### C10 — `generate_app_code` is total and always yields the 5 required files -/

/-- C10: for every collaborator behaviour (generator present or not, raising
or not, JSON parse succeeding or failing), every brief, checks list,
attachment list and existing-repository hint, `generate_app_code` returns a
code dict — falling back to template content on failure — that contains an
entry for each of `README.md`, `index.html`, `style.css`, `script.js` and
`LICENSE`. -/
theorem generate_app_code_required_files (env : GenEnv) (brief : String)
    (checks : List String) (attachments : List String) (existing_repo : Option String)
    (f : String) (hf : f ∈ required_files) :
    (sdictGet (generate_app_code env brief checks attachments existing_repo) f).isSome
      = true := by
  have hparse : ∀ text, (sdictGet (parse_generated_code env text brief) f).isSome = true := by
    intro text
    unfold parse_generated_code
    exact ensure_files_adds brief required_files _ f hf
  have htmpl : (sdictGet (generate_template_code_dict brief) f).isSome = true := by
    fin_cases hf <;> rfl
  unfold generate_app_code
  cases hga : env.generatorAvailable
  · simpa using hparse _
  · cases hg : env.generatorRun with
    | ok text => simpa [hg] using hparse text
    | error e => simpa [hg, generate_fallback_code] using htmpl

/-- Witness for C10: without a generator and with a JSON parser that always
fails, the result still contains `README.md`. -/
theorem generate_app_code_required_files_witness :
    (sdictGet (generate_app_code ⟨false, .ok "", fun _ => none, fun _ => ""⟩
        "todo app" ["must load"] [] none) "README.md").isSome = true :=
  generate_app_code_required_files ⟨false, .ok "", fun _ => none, fun _ => ""⟩
    "todo app" ["must load"] [] none "README.md" (by simp [required_files])

end LLMDeploy
